import Mathlib

/-
Verification development for the crypto-trading dashboard's core logic:
the signal scorer (backend/calculations/signal_generator.py) and the entry
lifecycle manager (backend/automation/entry_updater.py).

Shallow embedding conventions:
- Python floats are modelled as exact rationals (ℚ).  Python float division
  by zero raises (and is caught by the enclosing try in generate_signal);
  in ℚ, x / 0 = 0.  No claim below depends on a zero divisor.
- SQL NULL / pandas NaN indicator values are modelled as Option ℚ = none;
  candle close (current_price) comes from the non-null close column and is
  modelled as a plain ℚ.
- datetime.now() timestamps are modelled as an opaque Nat argument passed
  into each step function; timestamps never influence control flow.
- Python str.endswith with a one-character suffix is modelled by comparing
  the last character; Python int(s) is modelled by pyInt (optional sign
  followed by decimal digits; int() additionally tolerates surrounding
  whitespace and underscores, which no timeframe string uses).
-/

namespace Spec2Proof

/-- Timeframe class: Intraday (≤ 240 minutes) or Swing. -/
inductive TfType where
  | Intraday
  | Swing
deriving DecidableEq, Repr

/-- The discrete signal labels produced by the scorer and consumed by the
entry lifecycle manager. -/
inductive Signal where
  | ABuy
  | Buy
  | EarlyBuy
  | Watch
  | Caution
  | Sell
deriving DecidableEq, Repr

/-- The database string for a signal label, as stored in the signals table
and compared against in entry_updater.py. -/
def Signal.str : Signal → String
  | .ABuy => "A-BUY"
  | .Buy => "BUY"
  | .EarlyBuy => "EARLY-BUY"
  | .Watch => "WATCH"
  | .Caution => "CAUTION"
  | .Sell => "SELL"

/-- Numeric value of a decimal digit character. -/
def digitVal (c : Char) : Option Nat :=
  if '0' ≤ c ∧ c ≤ '9' then some (c.toNat - 48) else none

/-- Parse a nonempty all-digit character list as a natural number. -/
def parseDigits (cs : List Char) : Option Nat :=
  if cs.isEmpty then none
  else cs.foldl (fun acc c =>
    match acc, digitVal c with
    | some n, some d => some (10 * n + d)
    | _, _ => none) (some 0)

/-- Python int(s) for the strings that occur as timeframe prefixes: an
optional sign followed by decimal digits; none models a ValueError. -/
def pyInt (s : String) : Option Int :=
  match s.data with
  | '-' :: rest => (parseDigits rest).map (fun n => -(n : Int))
  | '+' :: rest => (parseDigits rest).map (fun n => (n : Int))
  | cs => (parseDigits cs).map (fun n => (n : Int))

/-- Python s.endswith(c) for a one-character suffix c. -/
def endsWithChar (s : String) (c : Char) : Bool :=
  s.data.getLast? = some c

/-- Python s[:-1]. -/
def dropLastStr (s : String) : String :=
  String.mk s.data.dropLast

namespace SignalGenerator

/-- SignalGenerator.classify_timeframe (signal_generator.py:88-112).
Returns (tf_type, max_score); none models the ValueError raised by int()
on a malformed numeric prefix.  An unrecognized suffix silently defaults
to 60 minutes ("# Default to 1h"). -/
def classify_timeframe (timeframe : String) : Option (TfType × ℚ) :=
  let minutes? : Option Int :=
    if endsWithChar timeframe 'm' then pyInt (dropLastStr timeframe)
    else if endsWithChar timeframe 'h' then (pyInt (dropLastStr timeframe)).map (fun n => n * 60)
    else if endsWithChar timeframe 'd' || timeframe.data = ['D'] then some (24 * 60)
    else if endsWithChar timeframe 'W' || timeframe.data = ['W'] then some (7 * 24 * 60)
    else some 60
  minutes?.map (fun minutes =>
    if minutes ≤ 240 then (TfType.Intraday, (36 : ℚ)) else (TfType.Swing, (41 : ℚ)))

end SignalGenerator

namespace EntryUpdater

/-- EntryUpdater.classify_timeframe (entry_updater.py:78-89).  Unlike the
signal generator's copy it has no week branch; an unrecognized suffix
silently defaults to 60 minutes. -/
def classify_timeframe (timeframe : String) : Option TfType :=
  let minutes? : Option Int :=
    if endsWithChar timeframe 'm' then pyInt (dropLastStr timeframe)
    else if endsWithChar timeframe 'h' then (pyInt (dropLastStr timeframe)).map (fun n => n * 60)
    else if endsWithChar timeframe 'd' || timeframe.data = ['D'] then some 1440
    else some 60
  minutes?.map (fun minutes =>
    if minutes ≤ 240 then TfType.Intraday else TfType.Swing)

end EntryUpdater

/-- One row of candle + indicator data as fetched by
fetch_indicator_data / fetch_indicator_data_by_id (signal_generator.py).
Option ℚ fields model SQL NULL / NaN indicator values; current_price is
the candle's non-null close. -/
structure IndicatorData where
  current_price : ℚ
  rsi : Option ℚ := none
  macd_line : Option ℚ := none
  macd_histogram : Option ℚ := none
  ema_44 : Option ℚ := none
  ema_100 : Option ℚ := none
  ema_200 : Option ℚ := none
  bb_position : Option String := none
  supertrend_1 : Option ℚ := none
  supertrend_2 : Option ℚ := none
  vwap : Option ℚ := none
  volume_signal : Option String := none
  adx : Option ℚ := none
  di_plus : Option ℚ := none
  di_minus : Option ℚ := none
  obv : Option ℚ := none
  obv_ma : Option ℚ := none
  atr : Option ℚ := none

/-- The ten component scores returned by calculate_score_components. -/
structure Scores where
  rsi : ℚ
  macd : ℚ
  bb : ℚ
  ema_stack : ℚ
  supertrend : ℚ
  vwap : ℚ
  volume : ℚ
  adx : ℚ
  di : ℚ
  obv : ℚ
deriving DecidableEq, Repr

namespace SignalGenerator

/-- The settings rows read by SignalGenerator (defaults from
_load_settings, signal_generator.py:73-86). -/
structure Settings where
  price_action_bonus_points : ℚ := 2
  intraday_aggressive_buy_threshold : ℚ := 29
  intraday_buy_threshold : ℚ := 23
  intraday_early_buy_threshold : ℚ := 18
  intraday_watch_threshold : ℚ := 13
  intraday_caution_threshold : ℚ := 9
  swing_aggressive_buy_threshold : ℚ := 33
  swing_buy_threshold : ℚ := 26
  swing_early_buy_threshold : ℚ := 21
  swing_watch_threshold : ℚ := 15
  swing_caution_threshold : ℚ := 10

/-- SignalGenerator.calculate_score_components (signal_generator.py:278-421).
Each component is computed independently; an absent indicator contributes
zero.  The Volume component is -1.5 for a Low signal on Intraday. -/
def calculate_score_components (data : IndicatorData) (tf_type : TfType) : Scores :=
  let rsiScore : ℚ :=
    match data.rsi with
    | some rsi =>
        if rsi ≤ 30 then 4.5
        else if rsi ≤ 40 then 3
        else if rsi ≤ 50 then 2
        else if rsi ≤ 60 then 1
        else 0
    | none => 0
  let macdScore : ℚ :=
    match data.macd_histogram with
    | some histogram =>
        let macd_line := data.macd_line.getD 0
        if histogram > 0 then (if macd_line > 0 then 5 else 3.5) else 0
    | none => 0
  let bb_pos := data.bb_position.getD "BB~"
  let bbScore : ℚ :=
    if bb_pos = "BB3↓" then 6
    else if bb_pos = "BB2↓" then 4
    else if bb_pos = "BB1↓" then 2
    else 0
  let ema_44_up : Bool :=
    match data.ema_44 with
    | some e => e < data.current_price
    | none => false
  let ema_100_up : Bool :=
    match data.ema_100 with
    | some e => e < data.current_price
    | none => false
  let ema_200_up : Bool :=
    match data.ema_200 with
    | some e => e < data.current_price
    | none => false
  let emaScore : ℚ :=
    match tf_type with
    | .Intraday =>
        (if ema_44_up then 2.5 else 0) + (if ema_100_up then 2 else 0)
          + (if ema_200_up then 1.5 else 0)
    | .Swing =>
        (if ema_200_up then 5 else 0) + (if ema_100_up then 3 else 0)
          + (if ema_44_up then 1 else 0)
  let st1_up : Bool :=
    match data.supertrend_1 with
    | some s => data.current_price > s
    | none => false
  let st2_up : Bool :=
    match data.supertrend_2 with
    | some s => data.current_price > s
    | none => false
  let stScore : ℚ :=
    match tf_type with
    | .Intraday => (if st1_up then 2.5 else 0) + (if st2_up then 2.5 else 0)
    | .Swing => (if st2_up then 4 else 0) + (if st1_up then 1 else 0)
  let vwapScore : ℚ :=
    match data.vwap with
    | some vwap =>
        let percent_diff := (data.current_price - vwap) / vwap
        if percent_diff > 0.005 then 2 else 0
    | none => 0
  let vol_signal := data.volume_signal.getD "N"
  let volScore : ℚ :=
    match tf_type with
    | .Intraday =>
        if vol_signal = "H" then 2 else if vol_signal = "L" then -1.5 else 0
    | .Swing =>
        if vol_signal = "H" then 2 else 0
  let adxScore : ℚ :=
    match data.adx with
    | some adx => if adx > 25 then 1.5 else 0
    | none => 0
  let diScore : ℚ :=
    match data.di_plus, data.di_minus with
    | some di_plus, some di_minus => if di_plus > di_minus then 1 else 0
    | _, _ => 0
  let obvScore : ℚ :=
    match data.obv, data.obv_ma with
    | some obv, some obv_ma => if obv > obv_ma then 1 else 0
    | _, _ => 0
  { rsi := rsiScore, macd := macdScore, bb := bbScore, ema_stack := emaScore,
    supertrend := stScore, vwap := vwapScore, volume := volScore,
    adx := adxScore, di := diScore, obv := obvScore }

/-- SignalGenerator.calculate_price_action_bonus (signal_generator.py:422-449).
Breakout is checked before bounce before magic line; only the first match
applies. -/
def calculate_price_action_bonus (settings : Settings) (current_price support resistance : ℚ)
    (magic_line : Option ℚ) : ℚ :=
  let max_bonus := settings.price_action_bonus_points
  if resistance > 0 ∧ current_price ≥ resistance * 1.005 then max_bonus
  else if support > 0 ∧ current_price ≥ support ∧ current_price ≤ support * 1.02 then
    max_bonus * 0.8
  else
    match magic_line with
    | some ml =>
        if ml > 0 ∧ current_price > ml ∧ current_price ≤ ml * 1.02 then max_bonus * 0.9
        else 0
    | none => 0

/-- SignalGenerator.calculate_total_score (signal_generator.py:451-466):
the plain sum of the ten components plus the bonus, then min with the
class ceiling.  No flooring at zero. -/
def calculate_total_score (scores : Scores) (price_action_bonus : ℚ)
    (tf_type : TfType) : ℚ :=
  let total := scores.rsi + scores.macd + scores.bb + scores.ema_stack
    + scores.supertrend + scores.vwap + scores.volume + scores.adx
    + scores.di + scores.obv + price_action_bonus
  let max_score : ℚ := match tf_type with
    | .Intraday => 36
    | .Swing => 41
  min total max_score

/-- SignalGenerator.classify_signal (signal_generator.py:468-510).  The RSI
safety gate guards only the two highest tiers; a missing RSI defaults to
the neutral value 50. -/
def classify_signal (settings : Settings) (score : ℚ) (tf_type : TfType)
    (data : IndicatorData) : Signal :=
  let aggressive_buy := match tf_type with
    | .Intraday => settings.intraday_aggressive_buy_threshold
    | .Swing => settings.swing_aggressive_buy_threshold
  let buy := match tf_type with
    | .Intraday => settings.intraday_buy_threshold
    | .Swing => settings.swing_buy_threshold
  let early_buy := match tf_type with
    | .Intraday => settings.intraday_early_buy_threshold
    | .Swing => settings.swing_early_buy_threshold
  let watch := match tf_type with
    | .Intraday => settings.intraday_watch_threshold
    | .Swing => settings.swing_watch_threshold
  let caution := match tf_type with
    | .Intraday => settings.intraday_caution_threshold
    | .Swing => settings.swing_caution_threshold
  let rsi := data.rsi.getD 50
  let rsi_safe := rsi ≥ 30
  if score ≥ aggressive_buy ∧ rsi_safe then .ABuy
  else if score ≥ buy ∧ rsi_safe then .Buy
  else if score ≥ early_buy then .EarlyBuy
  else if score ≥ watch then .Watch
  else if score ≥ caution then .Caution
  else .Sell

/-- The signal record assembled by generate_signal
(signal_generator.py:586-613), restricted to the fields the core computes
(identifiers and levels are pass-through). -/
structure SignalRecord where
  tf_type : TfType
  max_score : ℚ
  score_total : ℚ
  scores : Scores
  score_price_action_bonus : ℚ
  signal : Signal
  entry_price : Option ℚ
  stop_loss : Option ℚ
  target_price : Option ℚ
  current_price : ℚ
deriving DecidableEq, Repr

/-- SignalGenerator.generate_signal (signal_generator.py:512-621).
data? = none models a missing candle/indicator row; the function returns
none (and stores nothing) when the row is absent, when RSI or the MACD
histogram is missing, or when classify_timeframe raises — the enclosing
try/except turns any exception into a None return, never an error to the
caller. -/
def generate_signal (settings : Settings) (timeframe : String)
    (data? : Option IndicatorData) (support resistance : ℚ)
    (magic_line : Option ℚ) : Option SignalRecord :=
  match data? with
  | none => none
  | some data =>
    if data.rsi = none ∨ data.macd_histogram = none then none
    else
      match classify_timeframe timeframe with
      | none => none
      | some (tf_type, max_score) =>
        let scores := calculate_score_components data tf_type
        let current_price := data.current_price
        let price_bonus := calculate_price_action_bonus settings current_price
          support resistance magic_line
        let total_score := calculate_total_score scores price_bonus tf_type
        let signal := classify_signal settings total_score tf_type data
        let atr := data.atr.getD 0
        let (entry_price, stop_loss, target_price) :=
          if signal = Signal.ABuy ∨ signal = Signal.Buy ∨ signal = Signal.EarlyBuy then
            let atr_mult : ℚ := if tf_type = TfType.Intraday then 1.2 else 2
            let target_mult : ℚ := if tf_type = TfType.Intraday then 2 else 4
            (some current_price, some (current_price - atr * atr_mult),
             some (current_price + atr * target_mult))
          else
            (none, none, none)
        some { tf_type := tf_type, max_score := max_score,
               score_total := total_score, scores := scores,
               score_price_action_bonus := price_bonus, signal := signal,
               entry_price := entry_price, stop_loss := stop_loss,
               target_price := target_price, current_price := current_price }

end SignalGenerator

/-- validation_status values of an entry row. -/
inductive ValidationStatus where
  | VALIDATING
  | VALIDATED
  | INVALID
deriving DecidableEq, Repr

/-- exit_status values of an entry row. -/
inductive ExitStatus where
  | ACTIVE
  | EXIT1
  | EXIT2
  | EXIT3
  | EXITED
deriving DecidableEq, Repr

/-- One entry_tracking row as threaded through process_validating_entry /
process_validated_entry (entry_updater.py).  Fields the code reads
unconditionally (entry_price, peak_price) are plain ℚ; fields it
null-checks or only writes are Option.  Timestamps are opaque Nats. -/
structure Entry where
  timeframe : String
  entry_price : ℚ
  peak_price : ℚ
  peak_datetime : Option Nat := none
  validation_status : ValidationStatus := .VALIDATING
  validation_datetime : Option Nat := none
  validation_candles_count : Nat := 0
  exit_status : ExitStatus := .ACTIVE
  exit_datetime : Option Nat := none
  exit_price : Option ℚ := none
  exit_reason : Option String := none
  current_price : ℚ
  current_profit_pct : ℚ := 0
  max_profit_pct : Option ℚ := some 0
  final_profit_pct : Option ℚ := none
  exit_1_hit : Bool := false
  exit_1_datetime : Option Nat := none
  exit_1_price : Option ℚ := none
  exit_2_hit : Bool := false
  exit_2_datetime : Option Nat := none
  exit_2_price : Option ℚ := none
  exit_3_hit : Bool := false
  exit_3_datetime : Option Nat := none
  exit_3_price : Option ℚ := none
  trailing_stop_price : Option ℚ := none
  trailing_stop_active : Bool := false
  recovery_attempt : Bool := false
  recovery_low_price : Option ℚ := none
  recovery_datetime : Option Nat := none
  active : Bool := true

namespace EntryUpdater

/- Validation / zone settings hardcoded in EntryUpdater.__init__
(entry_updater.py:44-74). -/

def intraday_validation_pct : ℚ := 1
def intraday_invalidation_pct : ℚ := 1
def swing_validation_pct : ℚ := 1
def swing_invalidation_pct : ℚ := 2

def breakeven_threshold : ℚ := 1
def exit1_below_entry : ℚ := 0
def exit2_below_entry : ℚ := 0.5
def exit3_below_entry : ℚ := 1

def zone3_start : ℚ := 2
def zone3_lock_pct : ℚ := 50
def zone3_exit2_drop : ℚ := 1
def zone3_exit3_drop : ℚ := 1

def zone4_start : ℚ := 5
def zone4_lock_pct : ℚ := 60
def zone4_exit2_drop : ℚ := 1.5
def zone4_exit3_drop : ℚ := 1

def zone5_start : ℚ := 10
def zone5_lock_pct : ℚ := 70
def zone5_exit1_drop : ℚ := 2
def zone5_exit2_drop : ℚ := 1
def zone5_exit3_drop : ℚ := 1

/-- The per-class validation threshold picked in process_validating_entry
(entry_updater.py:440). -/
def validation_pct_for (tf_type : TfType) : ℚ :=
  if tf_type = TfType.Intraday then intraday_validation_pct else swing_validation_pct

/-- The per-class invalidation threshold picked in process_validating_entry
(entry_updater.py:441). -/
def invalidation_pct_for (tf_type : TfType) : ℚ :=
  if tf_type = TfType.Intraday then intraday_invalidation_pct else swing_invalidation_pct

/-- EntryUpdater.calculate_exit_levels (entry_updater.py:361-408): the
profit-lock ladder (exit1, exit2, exit3) from entry price and peak price,
by zone of peak profit percent. -/
def calculate_exit_levels (entry_price peak_price : ℚ) : ℚ × ℚ × ℚ :=
  let peak_profit_pct := (peak_price - entry_price) / entry_price * 100
  if peak_profit_pct < breakeven_threshold then
    (0, 0, 0)
  else if peak_profit_pct < zone3_start then
    (entry_price * (1 - exit1_below_entry / 100),
     entry_price * (1 - exit2_below_entry / 100),
     entry_price * (1 - exit3_below_entry / 100))
  else if peak_profit_pct < zone4_start then
    let profit_gain := peak_price - entry_price
    let locked_profit := profit_gain * (zone3_lock_pct / 100)
    let exit1 := entry_price + locked_profit
    let exit2 := exit1 * (1 - zone3_exit2_drop / 100)
    let exit3 := exit2 * (1 - zone3_exit3_drop / 100)
    (exit1, exit2, exit3)
  else if peak_profit_pct < zone5_start then
    let profit_gain := peak_price - entry_price
    let locked_profit := profit_gain * (zone4_lock_pct / 100)
    let exit1 := entry_price + locked_profit
    let exit2 := exit1 * (1 - zone4_exit2_drop / 100)
    let exit3 := exit2 * (1 - zone4_exit3_drop / 100)
    (exit1, exit2, exit3)
  else
    let profit_gain := peak_price - entry_price
    let locked_profit := profit_gain * (zone5_lock_pct / 100)
    let exit1_from_lock := entry_price + locked_profit
    let exit1_from_peak := peak_price * (1 - zone5_exit1_drop / 100)
    let exit1 := max exit1_from_lock exit1_from_peak
    let exit2 := exit1 * (1 - zone5_exit2_drop / 100)
    let exit3 := exit2 * (1 - zone5_exit3_drop / 100)
    (exit1, exit2, exit3)

/-- EntryUpdater.process_validating_entry (entry_updater.py:410-487).
Returns none when classify_timeframe raises (the exception escapes and no
update is written).  Note the check order: validation, then price
invalidation, then CAUTION signal, then WATCH + deeper drop; a SELL signal
is not checked at all in this state. -/
def process_validating_entry (entry : Entry) (current_price : ℚ)
    (current_signal : Signal) (now : Nat) : Option Entry :=
  match classify_timeframe entry.timeframe with
  | none => none
  | some tf_type =>
    let entry_price := entry.entry_price
    let validation_candles := entry.validation_candles_count
    let e₁ :=
      if current_price > entry.peak_price then
        { entry with peak_price := current_price, peak_datetime := some now }
      else entry
    let peak_price := e₁.peak_price
    let current_pct := (current_price - entry_price) / entry_price * 100
    let peak_pct := (peak_price - entry_price) / entry_price * 100
    let recovery_low :=
      match e₁.recovery_low_price with
      | none => current_price
      | some r => if current_price < r then current_price else r
    let e₂ := { e₁ with recovery_low_price := some recovery_low }
    let lowest_pct := (recovery_low - entry_price) / entry_price * 100
    let validation_pct := validation_pct_for tf_type
    let invalidation_pct := invalidation_pct_for tf_type
    let e₃ :=
      if peak_pct ≥ validation_pct then
        { e₂ with validation_status := ValidationStatus.VALIDATED,
                  validation_datetime := some now,
                  exit_status := ExitStatus.ACTIVE }
      else if lowest_pct ≤ -invalidation_pct then
        { e₂ with validation_status := ValidationStatus.INVALID,
                  exit_status := ExitStatus.EXITED,
                  exit_reason := some "PRICE_DROP",
                  exit_datetime := some now,
                  exit_price := some current_price,
                  final_profit_pct := some current_pct,
                  active := false }
      else if current_signal = Signal.Caution then
        { e₂ with validation_status := ValidationStatus.INVALID,
                  exit_status := ExitStatus.EXITED,
                  exit_reason := some "CAUTION_SIGNAL",
                  exit_datetime := some now,
                  exit_price := some current_price,
                  final_profit_pct := some current_pct,
                  active := false }
      else if current_signal = Signal.Watch ∧ lowest_pct ≤ -(invalidation_pct * 1.1) then
        { e₂ with validation_status := ValidationStatus.INVALID,
                  exit_status := ExitStatus.EXITED,
                  exit_reason := some "WATCH_PRICE_DROP",
                  exit_datetime := some now,
                  exit_price := some current_price,
                  final_profit_pct := some current_pct,
                  active := false }
      else e₂
    some { e₃ with validation_candles_count := validation_candles + 1,
                   current_price := current_price,
                   current_profit_pct := current_pct,
                   max_profit_pct := some (max (e₃.max_profit_pct.getD 0) peak_pct) }

/-- The "# Update peak" block shared by both process functions
(entry_updater.py:423-427 and 500-504). -/
def update_peak (entry : Entry) (current_price : ℚ) (now : Nat) : Entry :=
  if current_price > entry.peak_price then
    { entry with peak_price := current_price, peak_datetime := some now }
  else entry

/-- The field updates of a signal-based terminal exit in
process_validated_entry (entry_updater.py:512-530). -/
def signal_exit (e : Entry) (current_price current_pct : ℚ) (reason : String)
    (now : Nat) : Entry :=
  { e with exit_status := ExitStatus.EXITED,
           exit_reason := some reason,
           exit_datetime := some now,
           exit_price := some current_price,
           final_profit_pct := some current_pct,
           active := false }

/-- "# Store trailing stop (EXIT-1 is the trailing stop)"
(entry_updater.py:536-539). -/
def store_trailing_stop (exit1 : ℚ) (e : Entry) : Entry :=
  if exit1 > 0 then
    { e with trailing_stop_price := some exit1, trailing_stop_active := true }
  else e

/-- "# Check EXIT-1" (entry_updater.py:543-549). -/
def check_exit_1 (exit1 current_price : ℚ) (now : Nat) (e : Entry) : Entry :=
  if exit1 > 0 ∧ current_price ≤ exit1 ∧ e.exit_1_hit = false then
    { e with exit_1_hit := true, exit_1_datetime := some now,
             exit_1_price := some current_price,
             exit_status := ExitStatus.EXIT1 }
  else e

/-- "# Check EXIT-2" (entry_updater.py:551-557). -/
def check_exit_2 (exit2 current_price : ℚ) (now : Nat) (e : Entry) : Entry :=
  if exit2 > 0 ∧ current_price ≤ exit2 ∧ e.exit_2_hit = false then
    { e with exit_2_hit := true, exit_2_datetime := some now,
             exit_2_price := some current_price,
             exit_status := ExitStatus.EXIT2 }
  else e

/-- "# Check EXIT-3" (entry_updater.py:559-565). -/
def check_exit_3 (exit3 current_price : ℚ) (now : Nat) (e : Entry) : Entry :=
  if exit3 > 0 ∧ current_price ≤ exit3 ∧ e.exit_3_hit = false then
    { e with exit_3_hit := true, exit_3_datetime := some now,
             exit_3_price := some current_price,
             exit_status := ExitStatus.EXIT3 }
  else e

/-- "# Check RECOVERY (price moving back up)" (entry_updater.py:567-584):
moves exit_status back one tier and marks recovery_attempt; hit flags are
not touched. -/
def check_recovery (exit1 exit2 exit3 current_price : ℚ) (now : Nat)
    (e : Entry) : Entry :=
  if e.exit_3_hit = true ∧ current_price > exit3 then
    { e with exit_status := ExitStatus.EXIT2, recovery_attempt := true,
             recovery_datetime := some now }
  else if e.exit_2_hit = true ∧ e.exit_3_hit = false ∧ current_price > exit2 then
    { e with exit_status := ExitStatus.EXIT1, recovery_attempt := true,
             recovery_datetime := some now }
  else if e.exit_1_hit = true ∧ e.exit_2_hit = false ∧ current_price > exit1 then
    { e with exit_status := ExitStatus.ACTIVE, recovery_attempt := true,
             recovery_datetime := some now }
  else e

/-- "# Check EXIT-3 + weak signal = FINAL EXIT" (entry_updater.py:586-594). -/
def check_final_exit (current_signal : Signal) (current_price current_pct : ℚ)
    (now : Nat) (e : Entry) : Entry :=
  if e.exit_3_hit = true ∧ (current_signal = Signal.Watch ∨ current_signal = Signal.Caution) then
    { e with exit_status := ExitStatus.EXITED,
             exit_reason := some ("EXIT3_" ++ current_signal.str),
             exit_datetime := some now,
             exit_price := some current_price,
             final_profit_pct := some current_pct,
             active := false }
  else e

/-- "# Update entry" (entry_updater.py:596-599). -/
def finalize_update (current_price current_pct peak_pct : ℚ) (e : Entry) : Entry :=
  { e with current_price := current_price,
           current_profit_pct := current_pct,
           max_profit_pct := some (max (e.max_profit_pct.getD 0) peak_pct) }

/-- EntryUpdater.process_validated_entry (entry_updater.py:488-601), as the
sequence of its commented blocks.  SELL / CAUTION signals exit immediately
before any tier math; the three tier checks then run independently in
sequence; recovery moves exit_status back one tier without clearing hit
flags; EXIT-3 + WATCH/CAUTION is a final terminal exit. -/
def process_validated_entry (entry : Entry) (current_price : ℚ)
    (current_signal : Signal) (now : Nat) : Entry :=
  let entry_price := entry.entry_price
  let e₁ := update_peak entry current_price now
  let peak_price := e₁.peak_price
  let current_pct := (current_price - entry_price) / entry_price * 100
  let peak_pct := (peak_price - entry_price) / entry_price * 100
  if current_signal = Signal.Sell then
    signal_exit e₁ current_price current_pct "SELL_SIGNAL" now
  else if current_signal = Signal.Caution then
    signal_exit e₁ current_price current_pct "CAUTION_SIGNAL" now
  else
    let levels := calculate_exit_levels entry_price peak_price
    let exit1 := levels.1
    let exit2 := levels.2.1
    let exit3 := levels.2.2
    finalize_update current_price current_pct peak_pct
      (check_final_exit current_signal current_price current_pct now
        (check_recovery exit1 exit2 exit3 current_price now
          (check_exit_3 exit3 current_price now
            (check_exit_2 exit2 current_price now
              (check_exit_1 exit1 current_price now
                (store_trailing_stop exit1 e₁))))))

/-- Field bookkeeping for update_peak: hit flags, max profit, entry price,
exit status and active are untouched; peak price never decreases. -/
lemma update_peak_proj (e : Entry) (p : ℚ) (n : Nat) :
    (update_peak e p n).exit_1_hit = e.exit_1_hit
    ∧ (update_peak e p n).exit_2_hit = e.exit_2_hit
    ∧ (update_peak e p n).exit_3_hit = e.exit_3_hit
    ∧ (update_peak e p n).max_profit_pct = e.max_profit_pct
    ∧ (update_peak e p n).entry_price = e.entry_price
    ∧ (update_peak e p n).exit_status = e.exit_status
    ∧ (update_peak e p n).active = e.active
    ∧ e.peak_price ≤ (update_peak e p n).peak_price := by
  unfold update_peak
  split_ifs with h
  · simp; linarith
  · simp

/-- Field bookkeeping for signal_exit: hit flags, max profit and peak are
untouched; the entry is terminally exited. -/
lemma signal_exit_proj (e : Entry) (p c : ℚ) (r : String) (n : Nat) :
    (signal_exit e p c r n).exit_1_hit = e.exit_1_hit
    ∧ (signal_exit e p c r n).exit_2_hit = e.exit_2_hit
    ∧ (signal_exit e p c r n).exit_3_hit = e.exit_3_hit
    ∧ (signal_exit e p c r n).max_profit_pct = e.max_profit_pct
    ∧ (signal_exit e p c r n).peak_price = e.peak_price
    ∧ (signal_exit e p c r n).exit_status = ExitStatus.EXITED
    ∧ (signal_exit e p c r n).active = false := by
  unfold signal_exit; simp

/-- Field bookkeeping for store_trailing_stop. -/
lemma store_trailing_stop_proj (x : ℚ) (e : Entry) :
    (store_trailing_stop x e).exit_1_hit = e.exit_1_hit
    ∧ (store_trailing_stop x e).exit_2_hit = e.exit_2_hit
    ∧ (store_trailing_stop x e).exit_3_hit = e.exit_3_hit
    ∧ (store_trailing_stop x e).max_profit_pct = e.max_profit_pct
    ∧ (store_trailing_stop x e).peak_price = e.peak_price
    ∧ (store_trailing_stop x e).exit_status = e.exit_status
    ∧ (store_trailing_stop x e).active = e.active := by
  unfold store_trailing_stop; split_ifs <;> simp

/-- Field bookkeeping for check_exit_1: other flags are untouched and its
own flag only ever moves to true. -/
lemma check_exit_1_proj (x p : ℚ) (n : Nat) (e : Entry) :
    (check_exit_1 x p n e).exit_2_hit = e.exit_2_hit
    ∧ (check_exit_1 x p n e).exit_3_hit = e.exit_3_hit
    ∧ (check_exit_1 x p n e).max_profit_pct = e.max_profit_pct
    ∧ (check_exit_1 x p n e).peak_price = e.peak_price
    ∧ (check_exit_1 x p n e).active = e.active
    ∧ (e.exit_1_hit = true → (check_exit_1 x p n e).exit_1_hit = true) := by
  unfold check_exit_1; split_ifs <;> simp_all

/-- Field bookkeeping for check_exit_2. -/
lemma check_exit_2_proj (x p : ℚ) (n : Nat) (e : Entry) :
    (check_exit_2 x p n e).exit_1_hit = e.exit_1_hit
    ∧ (check_exit_2 x p n e).exit_3_hit = e.exit_3_hit
    ∧ (check_exit_2 x p n e).max_profit_pct = e.max_profit_pct
    ∧ (check_exit_2 x p n e).peak_price = e.peak_price
    ∧ (check_exit_2 x p n e).active = e.active
    ∧ (e.exit_2_hit = true → (check_exit_2 x p n e).exit_2_hit = true) := by
  unfold check_exit_2; split_ifs <;> simp_all

/-- Field bookkeeping for check_exit_3. -/
lemma check_exit_3_proj (x p : ℚ) (n : Nat) (e : Entry) :
    (check_exit_3 x p n e).exit_1_hit = e.exit_1_hit
    ∧ (check_exit_3 x p n e).exit_2_hit = e.exit_2_hit
    ∧ (check_exit_3 x p n e).max_profit_pct = e.max_profit_pct
    ∧ (check_exit_3 x p n e).peak_price = e.peak_price
    ∧ (check_exit_3 x p n e).active = e.active
    ∧ (e.exit_3_hit = true → (check_exit_3 x p n e).exit_3_hit = true) := by
  unfold check_exit_3; split_ifs <;> simp_all

/-- Field bookkeeping for check_recovery: it changes exit_status and the
recovery fields only — in particular no hit flag is cleared. -/
lemma check_recovery_proj (x1 x2 x3 p : ℚ) (n : Nat) (e : Entry) :
    (check_recovery x1 x2 x3 p n e).exit_1_hit = e.exit_1_hit
    ∧ (check_recovery x1 x2 x3 p n e).exit_2_hit = e.exit_2_hit
    ∧ (check_recovery x1 x2 x3 p n e).exit_3_hit = e.exit_3_hit
    ∧ (check_recovery x1 x2 x3 p n e).max_profit_pct = e.max_profit_pct
    ∧ (check_recovery x1 x2 x3 p n e).peak_price = e.peak_price
    ∧ (check_recovery x1 x2 x3 p n e).active = e.active := by
  unfold check_recovery; split_ifs <;> simp

/-- Field bookkeeping for check_final_exit. -/
lemma check_final_exit_proj (s : Signal) (p c : ℚ) (n : Nat) (e : Entry) :
    (check_final_exit s p c n e).exit_1_hit = e.exit_1_hit
    ∧ (check_final_exit s p c n e).exit_2_hit = e.exit_2_hit
    ∧ (check_final_exit s p c n e).exit_3_hit = e.exit_3_hit
    ∧ (check_final_exit s p c n e).max_profit_pct = e.max_profit_pct
    ∧ (check_final_exit s p c n e).peak_price = e.peak_price := by
  unfold check_final_exit; split_ifs <;> simp

/-- Field bookkeeping for finalize_update: flags, peak, status and active
are untouched; max_profit_pct becomes the max of its old value and the
peak profit percent. -/
lemma finalize_update_proj (p c q : ℚ) (e : Entry) :
    (finalize_update p c q e).exit_1_hit = e.exit_1_hit
    ∧ (finalize_update p c q e).exit_2_hit = e.exit_2_hit
    ∧ (finalize_update p c q e).exit_3_hit = e.exit_3_hit
    ∧ (finalize_update p c q e).peak_price = e.peak_price
    ∧ (finalize_update p c q e).exit_status = e.exit_status
    ∧ (finalize_update p c q e).active = e.active
    ∧ (finalize_update p c q e).max_profit_pct = some (max (e.max_profit_pct.getD 0) q) := by
  unfold finalize_update; simp

/-- The peak price after update_peak: unchanged, or replaced by the current
price when that price is strictly greater. -/
lemma update_peak_peak_cases (e : Entry) (p : ℚ) (n : Nat) :
    (update_peak e p n).peak_price = e.peak_price
      ∨ (p > e.peak_price ∧ (update_peak e p n).peak_price = p) := by
  unfold update_peak
  split_ifs with h
  · exact Or.inr ⟨h, by simp⟩
  · exact Or.inl rfl

/-- Unfolding process_validated_entry on a SELL tick: peak update followed
by the signal exit. -/
lemma process_validated_entry_sell (e : Entry) (p : ℚ) (n : Nat) :
    process_validated_entry e p Signal.Sell n
      = signal_exit (update_peak e p n) p ((p - e.entry_price) / e.entry_price * 100)
          "SELL_SIGNAL" n := rfl

/-- Unfolding process_validated_entry on a CAUTION tick. -/
lemma process_validated_entry_caution (e : Entry) (p : ℚ) (n : Nat) :
    process_validated_entry e p Signal.Caution n
      = signal_exit (update_peak e p n) p ((p - e.entry_price) / e.entry_price * 100)
          "CAUTION_SIGNAL" n := rfl

/-- Unfolding process_validated_entry on a non-SELL, non-CAUTION tick: the
tier pipeline on the exit levels computed from the updated peak. -/
lemma process_validated_entry_tier (e : Entry) (p : ℚ) (s : Signal) (n : Nat)
    (hs : s ≠ Signal.Sell) (hc : s ≠ Signal.Caution) :
    process_validated_entry e p s n
      = finalize_update p ((p - e.entry_price) / e.entry_price * 100)
          (((update_peak e p n).peak_price - e.entry_price) / e.entry_price * 100)
          (check_final_exit s p ((p - e.entry_price) / e.entry_price * 100) n
            (check_recovery
              (calculate_exit_levels e.entry_price (update_peak e p n).peak_price).1
              (calculate_exit_levels e.entry_price (update_peak e p n).peak_price).2.1
              (calculate_exit_levels e.entry_price (update_peak e p n).peak_price).2.2
              p n
              (check_exit_3
                (calculate_exit_levels e.entry_price (update_peak e p n).peak_price).2.2 p n
                (check_exit_2
                  (calculate_exit_levels e.entry_price (update_peak e p n).peak_price).2.1 p n
                  (check_exit_1
                    (calculate_exit_levels e.entry_price (update_peak e p n).peak_price).1 p n
                    (store_trailing_stop
                      (calculate_exit_levels e.entry_price (update_peak e p n).peak_price).1
                      (update_peak e p n))))))) := by
  cases s with
  | Sell => exact absurd rfl hs
  | Caution => exact absurd rfl hc
  | ABuy => rfl
  | Buy => rfl
  | EarlyBuy => rfl
  | Watch => rfl

/-- Zone 1 of calculate_exit_levels: peak profit below 1%, all exits
disabled. -/
lemma exit_levels_zone1 (e p : ℚ) (h1 : (p - e) / e * 100 < 1) :
    calculate_exit_levels e p = (0, 0, 0) := by
  unfold calculate_exit_levels
  rw [if_pos (by simp only [breakeven_threshold]; linarith)]

/-- Zone 2 of calculate_exit_levels: peak profit in [1%, 2%), breakeven
ladder below the entry price. -/
lemma exit_levels_zone2 (e p : ℚ) (h1 : 1 ≤ (p - e) / e * 100)
    (h2 : (p - e) / e * 100 < 2) :
    calculate_exit_levels e p
      = (e * (1 - 0 / 100), e * (1 - 0.5 / 100), e * (1 - 1 / 100)) := by
  unfold calculate_exit_levels
  rw [if_neg (by simp only [breakeven_threshold]; linarith),
      if_pos (by simp only [zone3_start]; linarith)]
  norm_num [exit1_below_entry, exit2_below_entry, exit3_below_entry]

/-- Zone 3 of calculate_exit_levels: peak profit in [2%, 5%), 50% of the
gain locked. -/
lemma exit_levels_zone3 (e p : ℚ) (h1 : 2 ≤ (p - e) / e * 100)
    (h2 : (p - e) / e * 100 < 5) :
    calculate_exit_levels e p
      = (e + (p - e) * (50 / 100),
         (e + (p - e) * (50 / 100)) * (1 - 1 / 100),
         (e + (p - e) * (50 / 100)) * (1 - 1 / 100) * (1 - 1 / 100)) := by
  unfold calculate_exit_levels
  rw [if_neg (by simp only [breakeven_threshold]; linarith),
      if_neg (by simp only [zone3_start]; linarith),
      if_pos (by simp only [zone4_start]; linarith)]
  norm_num [zone3_lock_pct, zone3_exit2_drop, zone3_exit3_drop]

/-- Zone 4 of calculate_exit_levels: peak profit in [5%, 10%), 60% of the
gain locked. -/
lemma exit_levels_zone4 (e p : ℚ) (h1 : 5 ≤ (p - e) / e * 100)
    (h2 : (p - e) / e * 100 < 10) :
    calculate_exit_levels e p
      = (e + (p - e) * (60 / 100),
         (e + (p - e) * (60 / 100)) * (1 - 1.5 / 100),
         (e + (p - e) * (60 / 100)) * (1 - 1.5 / 100) * (1 - 1 / 100)) := by
  unfold calculate_exit_levels
  rw [if_neg (by simp only [breakeven_threshold]; linarith),
      if_neg (by simp only [zone3_start]; linarith),
      if_neg (by simp only [zone4_start]; linarith),
      if_pos (by simp only [zone5_start]; linarith)]
  norm_num [zone4_lock_pct, zone4_exit2_drop, zone4_exit3_drop]

/-- Zone 5 of calculate_exit_levels: peak profit at least 10%, 70% of the
gain locked but never trailing more than 2% off the peak. -/
lemma exit_levels_zone5 (e p : ℚ) (h1 : 10 ≤ (p - e) / e * 100) :
    calculate_exit_levels e p
      = (max (e + (p - e) * (70 / 100)) (p * (1 - 2 / 100)),
         max (e + (p - e) * (70 / 100)) (p * (1 - 2 / 100)) * (1 - 1 / 100),
         max (e + (p - e) * (70 / 100)) (p * (1 - 2 / 100)) * (1 - 1 / 100) * (1 - 1 / 100)) := by
  unfold calculate_exit_levels
  rw [if_neg (by simp only [breakeven_threshold]; linarith),
      if_neg (by simp only [zone3_start]; linarith),
      if_neg (by simp only [zone4_start]; linarith),
      if_neg (by simp only [zone5_start]; linarith)]
  norm_num [zone5_lock_pct, zone5_exit1_drop, zone5_exit2_drop, zone5_exit3_drop]

/-- Whenever exit3 is enabled (> 0) and the entry price is positive, the
three exit levels are ordered exit3 ≤ exit2 ≤ exit1 and exit1 sits
strictly below the peak. -/
lemma exit_levels_ordered (e p : ℚ) (he : 0 < e) :
    0 < (calculate_exit_levels e p).2.2 →
    (calculate_exit_levels e p).2.2 ≤ (calculate_exit_levels e p).2.1
    ∧ (calculate_exit_levels e p).2.1 ≤ (calculate_exit_levels e p).1
    ∧ (calculate_exit_levels e p).1 < p := by
  intro h3
  by_cases hz1 : (p - e) / e * 100 < 1
  · rw [exit_levels_zone1 e p hz1] at h3
    norm_num at h3
  · push_neg at hz1
    have hb1 : e ≤ (p - e) * 100 := by
      rw [div_mul_eq_mul_div, le_div_iff₀ he] at hz1
      linarith
    by_cases hz2 : (p - e) / e * 100 < 2
    · rw [exit_levels_zone2 e p hz1 hz2]
      refine ⟨by nlinarith, by nlinarith, by nlinarith⟩
    · push_neg at hz2
      have hb2 : 2 * e ≤ (p - e) * 100 := by
        rw [div_mul_eq_mul_div, le_div_iff₀ he] at hz2
        linarith
      by_cases hz3 : (p - e) / e * 100 < 5
      · rw [exit_levels_zone3 e p hz2 hz3]
        refine ⟨by nlinarith, by nlinarith, by nlinarith⟩
      · push_neg at hz3
        have hb3 : 5 * e ≤ (p - e) * 100 := by
          rw [div_mul_eq_mul_div, le_div_iff₀ he] at hz3
          linarith
        by_cases hz4 : (p - e) / e * 100 < 10
        · rw [exit_levels_zone4 e p hz3 hz4]
          refine ⟨by nlinarith, by nlinarith, by nlinarith⟩
        · push_neg at hz4
          have hb4 : 10 * e ≤ (p - e) * 100 := by
            rw [div_mul_eq_mul_div, le_div_iff₀ he] at hz4
            linarith
          rw [exit_levels_zone5 e p hz4]
          have hppos : 0 < p := by nlinarith
          have hmx : 0 ≤ max (e + (p - e) * (70 / 100)) (p * (1 - 2 / 100)) :=
            le_trans (by nlinarith) (le_max_right _ _)
          refine ⟨by nlinarith, by nlinarith, ?_⟩
          rw [max_lt_iff]
          exact ⟨by nlinarith, by nlinarith⟩

/-- check_exit_1 fires when its full condition holds: the flag is set and
the exit status moves to EXIT-1. -/
lemma check_exit_1_fires (x p : ℚ) (n : Nat) (e : Entry)
    (h : x > 0 ∧ p ≤ x ∧ e.exit_1_hit = false) :
    (check_exit_1 x p n e).exit_1_hit = true
    ∧ (check_exit_1 x p n e).exit_status = ExitStatus.EXIT1 := by
  unfold check_exit_1
  rw [if_pos h]
  exact ⟨rfl, rfl⟩

/-- check_exit_2 fires when its full condition holds. -/
lemma check_exit_2_fires (x p : ℚ) (n : Nat) (e : Entry)
    (h : x > 0 ∧ p ≤ x ∧ e.exit_2_hit = false) :
    (check_exit_2 x p n e).exit_2_hit = true
    ∧ (check_exit_2 x p n e).exit_status = ExitStatus.EXIT2 := by
  unfold check_exit_2
  rw [if_pos h]
  exact ⟨rfl, rfl⟩

/-- check_exit_3 fires when its full condition holds. -/
lemma check_exit_3_fires (x p : ℚ) (n : Nat) (e : Entry)
    (h : x > 0 ∧ p ≤ x ∧ e.exit_3_hit = false) :
    (check_exit_3 x p n e).exit_3_hit = true
    ∧ (check_exit_3 x p n e).exit_status = ExitStatus.EXIT3 := by
  unfold check_exit_3
  rw [if_pos h]
  exact ⟨rfl, rfl⟩

/-- check_recovery leaves the entry untouched when none of its three
conditions holds. -/
lemma check_recovery_skip (x1 x2 x3 p : ℚ) (n : Nat) (e : Entry)
    (h1 : ¬(e.exit_3_hit = true ∧ p > x3))
    (h2 : ¬(e.exit_2_hit = true ∧ e.exit_3_hit = false ∧ p > x2))
    (h3 : ¬(e.exit_1_hit = true ∧ e.exit_2_hit = false ∧ p > x1)) :
    check_recovery x1 x2 x3 p n e = e := by
  unfold check_recovery
  rw [if_neg h1, if_neg h2, if_neg h3]

/-- check_final_exit leaves the entry untouched when its condition does
not hold. -/
lemma check_final_exit_skip (s : Signal) (p c : ℚ) (n : Nat) (e : Entry)
    (h : ¬(e.exit_3_hit = true ∧ (s = Signal.Watch ∨ s = Signal.Caution))) :
    check_final_exit s p c n e = e := by
  unfold check_final_exit
  rw [if_neg h]

end EntryUpdater

open EntryUpdater

/-- An entry mid-recovery: VALIDATED at exit_status EXIT-2 with exit_1_hit
and exit_2_hit already set, opened at 100 with peak 103. -/
def recovery_entry : Entry :=
  { timeframe := "1h", entry_price := 100, peak_price := 103,
    current_price := 100, validation_status := ValidationStatus.VALIDATED,
    exit_status := ExitStatus.EXIT2, exit_1_hit := true, exit_2_hit := true }

/-- C6: exit hit flags are monotone.  process_validating_entry never
touches them; process_validated_entry never resets one that is true; and
in the concrete recovery scenario (entry 100, peak 103, at EXIT-2 with
exit_1_hit and exit_2_hit set, price recovering to 101 above the exit2
level 100.485) the entry moves back to EXIT-1 with recovery_attempt true
while exit_2_hit stays true. -/
theorem c6_hit_flags_sticky (e : Entry) (p : ℚ) (s : Signal) (n : Nat) :
    (∀ e', process_validating_entry e p s n = some e' →
        e'.exit_1_hit = e.exit_1_hit ∧ e'.exit_2_hit = e.exit_2_hit
          ∧ e'.exit_3_hit = e.exit_3_hit)
    ∧ ((e.exit_1_hit = true → (process_validated_entry e p s n).exit_1_hit = true)
      ∧ (e.exit_2_hit = true → (process_validated_entry e p s n).exit_2_hit = true)
      ∧ (e.exit_3_hit = true → (process_validated_entry e p s n).exit_3_hit = true))
    ∧ ((process_validated_entry recovery_entry 101 Signal.Buy 0).exit_2_hit = true
      ∧ (process_validated_entry recovery_entry 101 Signal.Buy 0).exit_status = ExitStatus.EXIT1
      ∧ (process_validated_entry recovery_entry 101 Signal.Buy 0).recovery_attempt = true) := by
  refine ⟨?_, ?_, ?_⟩
  · intro e' h
    unfold process_validating_entry at h
    rcases hc : EntryUpdater.classify_timeframe e.timeframe with _ | tf
    · rw [hc] at h; exact absurd h (by simp)
    · rw [hc] at h
      simp only [Option.some.injEq] at h
      subst h
      split_ifs <;> simp
  · unfold process_validated_entry
    split_ifs with hs hc
    · simp only [(signal_exit_proj _ _ _ _ _).1, (signal_exit_proj _ _ _ _ _).2.1,
        (signal_exit_proj _ _ _ _ _).2.2.1, (update_peak_proj e p n).1,
        (update_peak_proj e p n).2.1, (update_peak_proj e p n).2.2.1]
      exact ⟨id, id, id⟩
    · simp only [(signal_exit_proj _ _ _ _ _).1, (signal_exit_proj _ _ _ _ _).2.1,
        (signal_exit_proj _ _ _ _ _).2.2.1, (update_peak_proj e p n).1,
        (update_peak_proj e p n).2.1, (update_peak_proj e p n).2.2.1]
      exact ⟨id, id, id⟩
    · refine ⟨?_, ?_, ?_⟩ <;> intro h
      · rw [(finalize_update_proj _ _ _ _).1, (check_final_exit_proj _ _ _ _ _).1,
          (check_recovery_proj _ _ _ _ _ _).1, (check_exit_3_proj _ _ _ _).1,
          (check_exit_2_proj _ _ _ _).1]
        exact (check_exit_1_proj _ _ _ _).2.2.2.2.2 (by
          rw [(store_trailing_stop_proj _ _).1, (update_peak_proj e p n).1]; exact h)
      · rw [(finalize_update_proj _ _ _ _).2.1, (check_final_exit_proj _ _ _ _ _).2.1,
          (check_recovery_proj _ _ _ _ _ _).2.1, (check_exit_3_proj _ _ _ _).2.1]
        exact (check_exit_2_proj _ _ _ _).2.2.2.2.2 (by
          rw [(check_exit_1_proj _ _ _ _).1, (store_trailing_stop_proj _ _).2.1,
            (update_peak_proj e p n).2.1]; exact h)
      · rw [(finalize_update_proj _ _ _ _).2.2.1, (check_final_exit_proj _ _ _ _ _).2.2.1,
          (check_recovery_proj _ _ _ _ _ _).2.2.1]
        exact (check_exit_3_proj _ _ _ _).2.2.2.2.2 (by
          rw [(check_exit_2_proj _ _ _ _).2.1, (check_exit_1_proj _ _ _ _).2.1,
            (store_trailing_stop_proj _ _).2.2.1, (update_peak_proj e p n).2.2.1]; exact h)
  · norm_num [recovery_entry, process_validated_entry, update_peak, signal_exit,
      store_trailing_stop, check_exit_1, check_exit_2, check_exit_3, check_recovery,
      check_final_exit, finalize_update, calculate_exit_levels, breakeven_threshold,
      zone3_start, zone4_start, zone5_start, zone3_lock_pct, zone3_exit2_drop,
      zone3_exit3_drop]
    decide

/-- Witness for C6 at a concrete input: an already-set exit_2_hit flag
survives a tick of process_validated_entry. -/
theorem c6_hit_flags_sticky_witness :
    recovery_entry.exit_2_hit = true
    ∧ (process_validated_entry recovery_entry 101 Signal.Buy 0).exit_2_hit = true :=
  ⟨rfl, (c6_hit_flags_sticky recovery_entry 101 Signal.Buy 0).2.1.2.1 rfl⟩

/-- C7: on every tick-processing step, in VALIDATING or VALIDATED state,
peak_price either stays unchanged or is replaced by the current price when
that price is strictly greater (hence never decreases), and max_profit_pct
never decreases. -/
theorem c7_peak_and_max_profit_monotone (e : Entry) (p : ℚ) (s : Signal) (n : Nat) :
    (∀ e', process_validating_entry e p s n = some e' →
        (e'.peak_price = e.peak_price ∨ (p > e.peak_price ∧ e'.peak_price = p))
        ∧ e.peak_price ≤ e'.peak_price
        ∧ e.max_profit_pct.getD 0 ≤ e'.max_profit_pct.getD 0)
    ∧ (((process_validated_entry e p s n).peak_price = e.peak_price
          ∨ (p > e.peak_price ∧ (process_validated_entry e p s n).peak_price = p))
      ∧ e.peak_price ≤ (process_validated_entry e p s n).peak_price
      ∧ e.max_profit_pct.getD 0 ≤ (process_validated_entry e p s n).max_profit_pct.getD 0) := by
  constructor
  · intro e' h
    unfold process_validating_entry at h
    rcases hc : EntryUpdater.classify_timeframe e.timeframe with _ | tf
    · rw [hc] at h; exact absurd h (by simp)
    · rw [hc] at h
      simp only [Option.some.injEq] at h
      subst h
      split_ifs <;> refine ⟨?_, ?_, ?_⟩ <;> simp_all <;> linarith
  · have hpk : ∀ q₁ q₂ q₃ sg x1 x2 x3 m,
        (finalize_update q₁ q₂ q₃
          (check_final_exit sg q₁ q₂ m
            (check_recovery x1 x2 x3 q₁ m
              (check_exit_3 x3 q₁ m
                (check_exit_2 x2 q₁ m
                  (check_exit_1 x1 q₁ m
                    (store_trailing_stop x1 (update_peak e p n)))))))).peak_price
          = (update_peak e p n).peak_price := by
      intro q₁ q₂ q₃ sg x1 x2 x3 m
      rw [(finalize_update_proj _ _ _ _).2.2.2.1, (check_final_exit_proj _ _ _ _ _).2.2.2.2,
        (check_recovery_proj _ _ _ _ _ _).2.2.2.2.1, (check_exit_3_proj _ _ _ _).2.2.2.1,
        (check_exit_2_proj _ _ _ _).2.2.2.1, (check_exit_1_proj _ _ _ _).2.2.2.1,
        (store_trailing_stop_proj _ _).2.2.2.2.1]
    have hmx : ∀ q₁ q₂ q₃ sg x1 x2 x3 m,
        (finalize_update q₁ q₂ q₃
          (check_final_exit sg q₁ q₂ m
            (check_recovery x1 x2 x3 q₁ m
              (check_exit_3 x3 q₁ m
                (check_exit_2 x2 q₁ m
                  (check_exit_1 x1 q₁ m
                    (store_trailing_stop x1 (update_peak e p n)))))))).max_profit_pct
          = some (max (e.max_profit_pct.getD 0) q₃) := by
      intro q₁ q₂ q₃ sg x1 x2 x3 m
      rw [(finalize_update_proj _ _ _ _).2.2.2.2.2.2, (check_final_exit_proj _ _ _ _ _).2.2.2.1,
        (check_recovery_proj _ _ _ _ _ _).2.2.2.1, (check_exit_3_proj _ _ _ _).2.2.1,
        (check_exit_2_proj _ _ _ _).2.2.1, (check_exit_1_proj _ _ _ _).2.2.1,
        (store_trailing_stop_proj _ _).2.2.2.1, (update_peak_proj e p n).2.2.2.1]
    by_cases hs : s = Signal.Sell
    · subst hs
      rw [process_validated_entry_sell]
      refine ⟨?_, ?_, ?_⟩
      · rw [(signal_exit_proj _ _ _ _ _).2.2.2.2.1]
        exact update_peak_peak_cases e p n
      · rw [(signal_exit_proj _ _ _ _ _).2.2.2.2.1]
        exact (update_peak_proj e p n).2.2.2.2.2.2.2
      · rw [(signal_exit_proj _ _ _ _ _).2.2.2.1, (update_peak_proj e p n).2.2.2.1]
    · by_cases hc : s = Signal.Caution
      · subst hc
        rw [process_validated_entry_caution]
        refine ⟨?_, ?_, ?_⟩
        · rw [(signal_exit_proj _ _ _ _ _).2.2.2.2.1]
          exact update_peak_peak_cases e p n
        · rw [(signal_exit_proj _ _ _ _ _).2.2.2.2.1]
          exact (update_peak_proj e p n).2.2.2.2.2.2.2
        · rw [(signal_exit_proj _ _ _ _ _).2.2.2.1, (update_peak_proj e p n).2.2.2.1]
      · rw [process_validated_entry_tier e p s n hs hc]
        refine ⟨?_, ?_, ?_⟩
        · rw [hpk]
          exact update_peak_peak_cases e p n
        · rw [hpk]
          exact (update_peak_proj e p n).2.2.2.2.2.2.2
        · rw [hmx]
          simp only [Option.getD_some]
          exact le_max_left _ _

/-- Witness for C7 at a concrete input: a VALIDATING tick at price 101 on
an entry whose peak is 103 leaves peak_price unchanged and keeps
max_profit_pct at least its old value. -/
theorem c7_peak_and_max_profit_monotone_witness :
    ∃ e', process_validating_entry recovery_entry 101 Signal.Buy 0 = some e'
      ∧ e'.peak_price = 103
      ∧ recovery_entry.max_profit_pct.getD 0 ≤ e'.max_profit_pct.getD 0 := by
  rcases hr : process_validating_entry recovery_entry 101 Signal.Buy 0 with _ | e'
  · exact absurd hr (by simp [process_validating_entry, EntryUpdater.classify_timeframe,
      recovery_entry, endsWithChar, dropLastStr, pyInt, parseDigits, digitVal])
  · obtain ⟨h1, h2, h3⟩ := (c7_peak_and_max_profit_monotone recovery_entry 101 Signal.Buy 0).1 e' hr
    refine ⟨e', rfl, ?_, h3⟩
    rcases h1 with h1 | ⟨hgt, _⟩
    · rw [h1]; norm_num [recovery_entry]
    · exact absurd hgt (by norm_num [recovery_entry])

/-- C2: code behavior at the failing inputs.  Both copies of
classify_timeframe accept the unsupported lowercase weekly string "1w" and
silently classify it Intraday (via the 60-minute default) instead of
failing loudly; moreover the two copies disagree on "1W" (the signal
generator maps it to Swing, the entry updater silently to Intraday). -/
theorem c2_unsupported_timeframe_silently_defaults :
    SignalGenerator.classify_timeframe "1w" = some (TfType.Intraday, 36)
    ∧ EntryUpdater.classify_timeframe "1w" = some TfType.Intraday
    ∧ SignalGenerator.classify_timeframe "1W" = some (TfType.Swing, 41)
    ∧ EntryUpdater.classify_timeframe "1W" = some TfType.Intraday := by
  refine ⟨?_, ?_, ?_, ?_⟩ <;> decide

/-- C3: the total score is exactly the sum of the ten component scores
plus the price-action bonus, capped above at the class maximum (36
Intraday, 41 Swing); no further clamping below the cap, and a Low volume
signal on Intraday really contributes a negative component (-1.5) to that
sum. -/
theorem c3_total_score_is_capped_sum :
    (∀ (scores : Scores) (bonus : ℚ) (tf : TfType),
        SignalGenerator.calculate_total_score scores bonus tf
          = min (scores.rsi + scores.macd + scores.bb + scores.ema_stack
              + scores.supertrend + scores.vwap + scores.volume + scores.adx
              + scores.di + scores.obv + bonus)
              (if tf = TfType.Intraday then 36 else 41)
        ∧ SignalGenerator.calculate_total_score scores bonus tf
            ≤ (if tf = TfType.Intraday then 36 else 41))
    ∧ (∀ data : IndicatorData, data.volume_signal = some "L" →
        (SignalGenerator.calculate_score_components data TfType.Intraday).volume = -1.5) := by
  constructor
  · intro scores bonus tf
    have h : SignalGenerator.calculate_total_score scores bonus tf
        = min (scores.rsi + scores.macd + scores.bb + scores.ema_stack
            + scores.supertrend + scores.vwap + scores.volume + scores.adx
            + scores.di + scores.obv + bonus)
            (if tf = TfType.Intraday then 36 else 41) := by
      cases tf <;> simp [SignalGenerator.calculate_total_score]
    exact ⟨h, by rw [h]; exact min_le_right _ _⟩
  · intro data h
    simp [SignalGenerator.calculate_score_components, h]

/-- Witness for C3 at a concrete input: an Intraday snapshot with a Low
volume signal gets volume component -1.5. -/
theorem c3_total_score_is_capped_sum_witness :
    ({ current_price := 100, volume_signal := some "L" } : IndicatorData).volume_signal = some "L"
    ∧ (SignalGenerator.calculate_score_components
        { current_price := 100, volume_signal := some "L" } TfType.Intraday).volume = -1.5 :=
  ⟨rfl, c3_total_score_is_capped_sum.2 { current_price := 100, volume_signal := some "L" } rfl⟩

/-- C4: the RSI safety gate.  With RSI present and below 30,
classify_signal never returns A-BUY or BUY no matter the score or
thresholds; with RSI absent the classification is identical to RSI = 50,
so absence never blocks the top two tiers. -/
theorem c4_rsi_safety_gate (settings : SignalGenerator.Settings) (score : ℚ)
    (tf : TfType) (data : IndicatorData) :
    (∀ r, data.rsi = some r → r < 30 →
        SignalGenerator.classify_signal settings score tf data ≠ Signal.ABuy
        ∧ SignalGenerator.classify_signal settings score tf data ≠ Signal.Buy)
    ∧ (data.rsi = none →
        SignalGenerator.classify_signal settings score tf data
          = SignalGenerator.classify_signal settings score tf { data with rsi := some 50 }) := by
  constructor
  · intro r hr h30
    have hns : ¬((30 : ℚ) ≤ r) := by linarith
    unfold SignalGenerator.classify_signal
    rw [hr]
    simp only [Option.getD, ge_iff_le, hns, and_false, if_false]
    constructor
    · split_ifs <;> simp
    · split_ifs <;> simp
  · intro hr
    unfold SignalGenerator.classify_signal
    rw [hr]
    norm_num

/-- Witness for C4 at a concrete input: RSI 25 with a huge score is not
classified A-BUY. -/
theorem c4_rsi_safety_gate_witness :
    ({ current_price := 100, rsi := some 25 } : IndicatorData).rsi = some 25
    ∧ (25 : ℚ) < 30
    ∧ SignalGenerator.classify_signal {} 100 TfType.Intraday
        { current_price := 100, rsi := some 25 } ≠ Signal.ABuy :=
  ⟨rfl, by norm_num,
    ((c4_rsi_safety_gate {} 100 TfType.Intraday { current_price := 100, rsi := some 25 }).1
      25 rfl (by norm_num)).1⟩

/-- C5: the exit-level ladder by zone of peak profit percent, including
the concrete example entry 100 / peak 103 (Zone 3): exit1 = 101.5,
exit2 = 100.485, exit3 = 99.48015. -/
theorem c5_exit_level_ladder (e p : ℚ) :
    ((p - e) / e * 100 < 1 → calculate_exit_levels e p = (0, 0, 0))
    ∧ (1 ≤ (p - e) / e * 100 → (p - e) / e * 100 < 2 →
        calculate_exit_levels e p
          = (e * (1 - 0 / 100), e * (1 - 0.5 / 100), e * (1 - 1 / 100)))
    ∧ (2 ≤ (p - e) / e * 100 → (p - e) / e * 100 < 5 →
        calculate_exit_levels e p
          = (e + (p - e) * (50 / 100),
             (e + (p - e) * (50 / 100)) * (1 - 1 / 100),
             (e + (p - e) * (50 / 100)) * (1 - 1 / 100) * (1 - 1 / 100)))
    ∧ (5 ≤ (p - e) / e * 100 → (p - e) / e * 100 < 10 →
        calculate_exit_levels e p
          = (e + (p - e) * (60 / 100),
             (e + (p - e) * (60 / 100)) * (1 - 1.5 / 100),
             (e + (p - e) * (60 / 100)) * (1 - 1.5 / 100) * (1 - 1 / 100)))
    ∧ (10 ≤ (p - e) / e * 100 →
        calculate_exit_levels e p
          = (max (e + (p - e) * (70 / 100)) (p * (1 - 2 / 100)),
             max (e + (p - e) * (70 / 100)) (p * (1 - 2 / 100)) * (1 - 1 / 100),
             max (e + (p - e) * (70 / 100)) (p * (1 - 2 / 100)) * (1 - 1 / 100) * (1 - 1 / 100)))
    ∧ calculate_exit_levels 100 103 = (101.5, 100.485, 99.48015) := by
  refine ⟨exit_levels_zone1 e p, exit_levels_zone2 e p, exit_levels_zone3 e p,
    exit_levels_zone4 e p, exit_levels_zone5 e p, ?_⟩
  rw [exit_levels_zone3 100 103 (by norm_num) (by norm_num)]
  norm_num

/-- Witness for C5 at a concrete input: entry 100, peak 103 lies in Zone 3
and the ladder formula evaluates to (101.5, 100.485, 99.48015). -/
theorem c5_exit_level_ladder_witness :
    (2 ≤ ((103 : ℚ) - 100) / 100 * 100 ∧ ((103 : ℚ) - 100) / 100 * 100 < 5)
    ∧ calculate_exit_levels 100 103
        = (100 + (103 - 100) * (50 / 100),
           (100 + (103 - 100) * (50 / 100)) * (1 - 1 / 100),
           (100 + (103 - 100) * (50 / 100)) * (1 - 1 / 100) * (1 - 1 / 100)) :=
  ⟨⟨by norm_num, by norm_num⟩,
    (c5_exit_level_ladder 100 103).2.2.1 (by norm_num) (by norm_num)⟩

/-- C9: when RSI or the MACD histogram is missing from the candle's
indicator data, generate_signal skips the candle entirely: it returns
none and raises nothing, so no score is computed and no signal row is
written. -/
theorem c9_missing_required_indicators_skip (settings : SignalGenerator.Settings)
    (timeframe : String) (data : IndicatorData) (support resistance : ℚ)
    (magic_line : Option ℚ) :
    data.rsi = none ∨ data.macd_histogram = none →
    SignalGenerator.generate_signal settings timeframe (some data) support resistance
      magic_line = none := by
  intro h
  simp only [SignalGenerator.generate_signal]
  rw [if_pos h]

/-- Witness for C9 at a concrete input: a snapshot with MACD histogram but
no RSI produces no signal. -/
theorem c9_missing_required_indicators_skip_witness :
    ({ current_price := 100, macd_histogram := some 1 } : IndicatorData).rsi = none
    ∧ SignalGenerator.generate_signal {} "1h"
        (some { current_price := 100, macd_histogram := some 1 }) 0 0 none = none :=
  ⟨rfl, c9_missing_required_indicators_skip {} "1h"
    { current_price := 100, macd_histogram := some 1 } 0 0 none (Or.inl rfl)⟩

/-- C8: exit1 never loosens across the 2%, 5% and 10% zone boundaries:
with peakPrice held at the lower bound of the upper zone, its exit1 is at
least the exit1 of any peakPrice inside the zone below. -/
theorem c8_exit1_monotone_across_boundaries (e p2 p3 p4 : ℚ) (he : 0 < e) :
    (1 ≤ (p2 - e) / e * 100 → (p2 - e) / e * 100 < 2 →
        (calculate_exit_levels e p2).1 ≤ (calculate_exit_levels e (e * (102 / 100))).1)
    ∧ (2 ≤ (p3 - e) / e * 100 → (p3 - e) / e * 100 < 5 →
        (calculate_exit_levels e p3).1 ≤ (calculate_exit_levels e (e * (105 / 100))).1)
    ∧ (5 ≤ (p4 - e) / e * 100 → (p4 - e) / e * 100 < 10 →
        (calculate_exit_levels e p4).1 ≤ (calculate_exit_levels e (e * (110 / 100))).1) := by
  have hne : e ≠ 0 := ne_of_gt he
  have hb2 : (e * (102 / 100) - e) / e * 100 = 2 := by field_simp; ring
  have hb5 : (e * (105 / 100) - e) / e * 100 = 5 := by field_simp; ring
  have hb10 : (e * (110 / 100) - e) / e * 100 = 10 := by field_simp; ring
  refine ⟨?_, ?_, ?_⟩
  · intro h1 h2
    rw [exit_levels_zone2 e p2 h1 h2,
        exit_levels_zone3 e (e * (102 / 100)) (by rw [hb2]) (by rw [hb2]; norm_num)]
    simp only
    nlinarith
  · intro h1 h2
    have h2' : (p3 - e) * 100 < 5 * e := by
      rw [div_mul_eq_mul_div, div_lt_iff₀ he] at h2
      linarith
    rw [exit_levels_zone3 e p3 h1 h2,
        exit_levels_zone4 e (e * (105 / 100)) (by rw [hb5]) (by rw [hb5]; norm_num)]
    simp only
    nlinarith
  · intro h1 h2
    have h2' : (p4 - e) * 100 < 10 * e := by
      rw [div_mul_eq_mul_div, div_lt_iff₀ he] at h2
      linarith
    rw [exit_levels_zone4 e p4 h1 h2,
        exit_levels_zone5 e (e * (110 / 100)) (by rw [hb10])]
    simp only
    refine le_trans ?_ (le_max_right _ _)
    nlinarith

/-- Witness for C8 at concrete inputs: entry 100 with in-zone peaks 101.5,
103 and 107 against boundary peaks 102, 105 and 110. -/
theorem c8_exit1_monotone_across_boundaries_witness :
    (0 : ℚ) < 100
    ∧ (calculate_exit_levels 100 101.5).1 ≤ (calculate_exit_levels 100 (100 * (102 / 100))).1
    ∧ (calculate_exit_levels 100 103).1 ≤ (calculate_exit_levels 100 (100 * (105 / 100))).1
    ∧ (calculate_exit_levels 100 107).1 ≤ (calculate_exit_levels 100 (100 * (110 / 100))).1 :=
  ⟨by norm_num,
    (c8_exit1_monotone_across_boundaries 100 101.5 103 107 (by norm_num)).1
      (by norm_num) (by norm_num),
    (c8_exit1_monotone_across_boundaries 100 101.5 103 107 (by norm_num)).2.1
      (by norm_num) (by norm_num),
    (c8_exit1_monotone_across_boundaries 100 101.5 103 107 (by norm_num)).2.2
      (by norm_num) (by norm_num)⟩

/-- A VALIDATED entry opened at 100 whose peak is 103 (Zone 3 ladder
101.5 / 100.485 / 99.48015) with no exit tier hit yet. -/
def validated_entry : Entry :=
  { timeframe := "1h", entry_price := 100, peak_price := 103,
    current_price := 103, validation_status := ValidationStatus.VALIDATED }

/-- C10 counterexample: the claim omits the signal.  At price 99 — at or
below exit3 = 99.48015 > 0 — but with latest signal SELL, the tick exits
terminally before any tier check: no hit flag is set and exit_status is
EXITED, not EXIT-3. -/
theorem c10_counterexample :
    ((0 : ℚ) < (calculate_exit_levels validated_entry.entry_price validated_entry.peak_price).2.2
      ∧ (99 : ℚ) ≤ (calculate_exit_levels validated_entry.entry_price validated_entry.peak_price).2.2)
    ∧ (process_validated_entry validated_entry 99 Signal.Sell 0).exit_1_hit = false
    ∧ (process_validated_entry validated_entry 99 Signal.Sell 0).exit_2_hit = false
    ∧ (process_validated_entry validated_entry 99 Signal.Sell 0).exit_3_hit = false
    ∧ (process_validated_entry validated_entry 99 Signal.Sell 0).exit_status
        = ExitStatus.EXITED := by
  constructor
  · rw [show (calculate_exit_levels validated_entry.entry_price validated_entry.peak_price)
        = calculate_exit_levels 100 103 from rfl,
      exit_levels_zone3 100 103 (by norm_num) (by norm_num)]
    norm_num
  · rw [process_validated_entry_sell]
    refine ⟨?_, ?_, ?_, ?_⟩
    · rw [(signal_exit_proj _ _ _ _ _).1, (update_peak_proj _ _ _).1]
      rfl
    · rw [(signal_exit_proj _ _ _ _ _).2.1, (update_peak_proj _ _ _).2.1]
      rfl
    · rw [(signal_exit_proj _ _ _ _ _).2.2.1, (update_peak_proj _ _ _).2.2.1]
      rfl
    · rw [(signal_exit_proj _ _ _ _ _).2.2.2.2.2.1]

/-- C10 (amended): for a VALIDATED entry with positive entry price, no hit
flags, and a tick at or below an enabled exit3 level, if the tick's signal
is not SELL or CAUTION (which exit immediately before the tier checks) and
not WATCH (whose EXIT-3 + weak-signal rule escalates to terminal EXITED in
the same tick), then that single tick sets all three hit flags and moves
exit_status straight to EXIT-3: tier advancement is not limited to one
tier per tick. -/
theorem c10_all_three_tiers_in_one_tick (e : Entry) (p : ℚ) (s : Signal) (n : Nat)
    (hep : 0 < e.entry_price)
    (hf1 : e.exit_1_hit = false) (hf2 : e.exit_2_hit = false) (hf3 : e.exit_3_hit = false)
    (hx3 : 0 < (calculate_exit_levels e.entry_price e.peak_price).2.2)
    (hp : p ≤ (calculate_exit_levels e.entry_price e.peak_price).2.2)
    (hs : s ≠ Signal.Sell) (hc : s ≠ Signal.Caution) (hw : s ≠ Signal.Watch) :
    (process_validated_entry e p s n).exit_1_hit = true
    ∧ (process_validated_entry e p s n).exit_2_hit = true
    ∧ (process_validated_entry e p s n).exit_3_hit = true
    ∧ (process_validated_entry e p s n).exit_status = ExitStatus.EXIT3 := by
  obtain ⟨h32, h21, h1pk⟩ := exit_levels_ordered e.entry_price e.peak_price hep hx3
  have hple : p < e.peak_price := lt_of_le_of_lt (le_trans hp (le_trans h32 h21)) h1pk
  have hup : update_peak e p n = e := by
    unfold update_peak
    rw [if_neg (not_lt.mpr hple.le)]
  rw [process_validated_entry_tier e p s n hs hc, hup]
  set x1 := (calculate_exit_levels e.entry_price e.peak_price).1 with hd1
  set x2 := (calculate_exit_levels e.entry_price e.peak_price).2.1 with hd2
  set x3 := (calculate_exit_levels e.entry_price e.peak_price).2.2 with hd3
  have hx2 : 0 < x2 := lt_of_lt_of_le hx3 h32
  have hx1 : 0 < x1 := lt_of_lt_of_le hx2 h21
  have hp2 : p ≤ x2 := le_trans hp h32
  have hp1 : p ≤ x1 := le_trans hp2 h21
  have hE0f1 : (store_trailing_stop x1 e).exit_1_hit = false := by
    rw [(store_trailing_stop_proj _ _).1, hf1]
  have hE0f2 : (store_trailing_stop x1 e).exit_2_hit = false := by
    rw [(store_trailing_stop_proj _ _).2.1, hf2]
  have hE0f3 : (store_trailing_stop x1 e).exit_3_hit = false := by
    rw [(store_trailing_stop_proj _ _).2.2.1, hf3]
  have hE1 := check_exit_1_fires x1 p n (store_trailing_stop x1 e) ⟨hx1, hp1, hE0f1⟩
  have hE1f2 : (check_exit_1 x1 p n (store_trailing_stop x1 e)).exit_2_hit = false := by
    rw [(check_exit_1_proj _ _ _ _).1, hE0f2]
  have hE1f3 : (check_exit_1 x1 p n (store_trailing_stop x1 e)).exit_3_hit = false := by
    rw [(check_exit_1_proj _ _ _ _).2.1, hE0f3]
  have hE2 := check_exit_2_fires x2 p n
    (check_exit_1 x1 p n (store_trailing_stop x1 e)) ⟨hx2, hp2, hE1f2⟩
  have hE2f1 : (check_exit_2 x2 p n
      (check_exit_1 x1 p n (store_trailing_stop x1 e))).exit_1_hit = true := by
    rw [(check_exit_2_proj _ _ _ _).1]
    exact hE1.1
  have hE2f3 : (check_exit_2 x2 p n
      (check_exit_1 x1 p n (store_trailing_stop x1 e))).exit_3_hit = false := by
    rw [(check_exit_2_proj _ _ _ _).2.1, hE1f3]
  have hE3 := check_exit_3_fires x3 p n
    (check_exit_2 x2 p n (check_exit_1 x1 p n (store_trailing_stop x1 e))) ⟨hx3, hp, hE2f3⟩
  have hE3f1 : (check_exit_3 x3 p n (check_exit_2 x2 p n
      (check_exit_1 x1 p n (store_trailing_stop x1 e)))).exit_1_hit = true := by
    rw [(check_exit_3_proj _ _ _ _).1]
    exact hE2f1
  have hE3f2 : (check_exit_3 x3 p n (check_exit_2 x2 p n
      (check_exit_1 x1 p n (store_trailing_stop x1 e)))).exit_2_hit = true := by
    rw [(check_exit_3_proj _ _ _ _).2.1]
    exact hE2.1
  have hR : check_recovery x1 x2 x3 p n
      (check_exit_3 x3 p n (check_exit_2 x2 p n
        (check_exit_1 x1 p n (store_trailing_stop x1 e))))
      = check_exit_3 x3 p n (check_exit_2 x2 p n
          (check_exit_1 x1 p n (store_trailing_stop x1 e))) := by
    refine check_recovery_skip _ _ _ _ _ _ ?_ ?_ ?_
    · rintro ⟨_, hgt⟩
      exact absurd hgt (not_lt.mpr hp)
    · rintro ⟨_, hcontra, _⟩
      rw [hE3.1] at hcontra
      cases hcontra
    · rintro ⟨_, hcontra, _⟩
      rw [hE3f2] at hcontra
      cases hcontra
  rw [hR]
  have hF : check_final_exit s p ((p - e.entry_price) / e.entry_price * 100) n
      (check_exit_3 x3 p n (check_exit_2 x2 p n
        (check_exit_1 x1 p n (store_trailing_stop x1 e))))
      = check_exit_3 x3 p n (check_exit_2 x2 p n
          (check_exit_1 x1 p n (store_trailing_stop x1 e))) := by
    refine check_final_exit_skip _ _ _ _ _ ?_
    rintro ⟨_, hw' | hc'⟩
    · exact hw hw'
    · exact hc hc'
  rw [hF]
  refine ⟨?_, ?_, ?_, ?_⟩
  · rw [(finalize_update_proj _ _ _ _).1]
    exact hE3f1
  · rw [(finalize_update_proj _ _ _ _).2.1]
    exact hE3f2
  · rw [(finalize_update_proj _ _ _ _).2.2.1]
    exact hE3.1
  · rw [(finalize_update_proj _ _ _ _).2.2.2.2.1]
    exact hE3.2

/-- Witness for C10 (amended) at a concrete input: validated_entry ticked
at price 99 with a BUY signal jumps from no tiers hit straight to EXIT-3
with all three flags set. -/
theorem c10_all_three_tiers_in_one_tick_witness :
    validated_entry.exit_1_hit = false
    ∧ (99 : ℚ) ≤ (calculate_exit_levels validated_entry.entry_price validated_entry.peak_price).2.2
    ∧ (process_validated_entry validated_entry 99 Signal.Buy 0).exit_1_hit = true
    ∧ (process_validated_entry validated_entry 99 Signal.Buy 0).exit_status = ExitStatus.EXIT3 := by
  have hzone : calculate_exit_levels validated_entry.entry_price validated_entry.peak_price
      = calculate_exit_levels 100 103 := rfl
  have h99 : (99 : ℚ) ≤ (calculate_exit_levels validated_entry.entry_price
      validated_entry.peak_price).2.2 := by
    rw [hzone, exit_levels_zone3 100 103 (by norm_num) (by norm_num)]
    norm_num
  have h0 : (0 : ℚ) < (calculate_exit_levels validated_entry.entry_price
      validated_entry.peak_price).2.2 := by
    rw [hzone, exit_levels_zone3 100 103 (by norm_num) (by norm_num)]
    norm_num
  obtain ⟨w1, _, _, w4⟩ := c10_all_three_tiers_in_one_tick validated_entry 99 Signal.Buy 0
    (by norm_num [validated_entry]) rfl rfl rfl h0 h99
    (by simp) (by simp) (by simp)
  exact ⟨rfl, h99, w1, w4⟩

/-- A freshly created VALIDATING entry at 100 with peak 100 and no
recovery low yet. -/
def validating_entry : Entry :=
  { timeframe := "1h", entry_price := 100, peak_price := 100, current_price := 100 }

/-- C1 counterexample: a SELL signal on a tick of a VALIDATING entry does
not terminate it.  process_validating_entry never checks for SELL: the
entry stays active with exit_status ACTIVE and validation_status
VALIDATING. -/
theorem c1_counterexample :
    (process_validating_entry validating_entry 100 Signal.Sell 0).map
        (fun x => (x.active, x.exit_status, x.validation_status))
      = some (true, ExitStatus.ACTIVE, ValidationStatus.VALIDATING) := by
  have hc : EntryUpdater.classify_timeframe "1h" = some TfType.Intraday := by decide
  have hsc : (Signal.Sell = Signal.Caution) = False := eq_false (by decide)
  have hsw : (Signal.Sell = Signal.Watch) = False := eq_false (by decide)
  norm_num [process_validating_entry, hc, hsc, hsw, validating_entry,
    validation_pct_for, invalidation_pct_for, intraday_validation_pct,
    intraday_invalidation_pct]

/-- C1 (amended): in VALIDATED state a SELL or CAUTION signal is handled
first and forces terminal exit regardless of tier position; in VALIDATING
state only CAUTION forces terminal exit, and only after the validation and
price-invalidation checks have both failed to fire — a SELL signal during
VALIDATING does not terminate the entry (see the counterexample). -/
theorem c1_signal_override (e : Entry) (p : ℚ) (n : Nat) :
    (∀ s, s = Signal.Sell ∨ s = Signal.Caution →
        (process_validated_entry e p s n).exit_status = ExitStatus.EXITED
        ∧ (process_validated_entry e p s n).active = false)
    ∧ (∀ tf, EntryUpdater.classify_timeframe e.timeframe = some tf →
        ((if p > e.peak_price then p else e.peak_price) - e.entry_price)
            / e.entry_price * 100 < validation_pct_for tf →
        ¬(((match e.recovery_low_price with
            | none => p
            | some r => if p < r then p else r) - e.entry_price) / e.entry_price * 100
              ≤ -(invalidation_pct_for tf)) →
        (process_validating_entry e p Signal.Caution n).map
            (fun x => (x.active, x.exit_status, x.validation_status))
          = some (false, ExitStatus.EXITED, ValidationStatus.INVALID)) := by
  constructor
  · intro s hs
    rcases hs with rfl | rfl
    · rw [process_validated_entry_sell]
      exact ⟨(signal_exit_proj _ _ _ _ _).2.2.2.2.2.1,
        (signal_exit_proj _ _ _ _ _).2.2.2.2.2.2⟩
    · rw [process_validated_entry_caution]
      exact ⟨(signal_exit_proj _ _ _ _ _).2.2.2.2.2.1,
        (signal_exit_proj _ _ _ _ _).2.2.2.2.2.2⟩
  · intro tf hc hpeak hlow
    have hpeak' : ¬(((if p > e.peak_price then p else e.peak_price) - e.entry_price)
        / e.entry_price * 100 ≥ validation_pct_for tf) := not_le.mpr hpeak
    simp only [process_validating_entry, hc,
      apply_ite Entry.peak_price, apply_ite Entry.recovery_low_price, ite_self]
    rw [if_neg hpeak', if_neg hlow]
    simp

/-- Witness for C1 (amended) at concrete inputs: a VALIDATED entry exits
on SELL, and a VALIDATING entry with no profit and no deep drop exits on
CAUTION. -/
theorem c1_signal_override_witness :
    ((process_validated_entry validated_entry 103 Signal.Sell 0).exit_status = ExitStatus.EXITED
      ∧ (process_validated_entry validated_entry 103 Signal.Sell 0).active = false)
    ∧ (process_validating_entry validating_entry 100 Signal.Caution 0).map
        (fun x => (x.active, x.exit_status, x.validation_status))
      = some (false, ExitStatus.EXITED, ValidationStatus.INVALID) := by
  constructor
  · exact (c1_signal_override validated_entry 103 0).1 Signal.Sell (Or.inl rfl)
  · refine (c1_signal_override validating_entry 100 0).2 TfType.Intraday (by decide) ?_ ?_
    · norm_num [validating_entry, validation_pct_for, intraday_validation_pct]
    · norm_num [validating_entry, invalidation_pct_for, intraday_invalidation_pct]

end Spec2Proof
